import Mathlib

/-!
Verification of the League-of-Legends rank-prediction pipeline
(`league_api.py` and companions) against its natural-language
specification.  The Python source is shallowly embedded: dictionaries
and DataFrame rows become association lists `List (String × Val)`,
machine reals become `ℚ`, HTTP responses become a record, the opaque
pickled classifier becomes a function parameter, and console output
becomes an explicit list of strings.
-/

namespace LeagueApi

/-- A cell value of a player-stats row: either a number (all numeric
JSON fields and derived ratios, embedded in `ℚ`) or a raw string
(the pre-encoding `Lane`, `Role`, `GamePhase`, and the descriptive
`summonerName` / `championName` fields). -/
inductive Val where
  | num (q : ℚ)
  | str (s : String)
deriving DecidableEq, Repr

/-- One row of the extracted player-stats table, in dictionary
insertion order, mirroring the `stats` dict of `extract_player_stats`. -/
abbrev Row := List (String × Val)

/-- The perk ids the extractor reads from
`participant['perks']['styles'][0]['selections'][0..3]['perk']` and
`participant['perks']['styles'][1]['selections'][0..1]['perk']`.
The match API guarantees two style groups with four and two
selections, so they are modelled as six plain fields. -/
structure Perks where
  primaryKeystone : ℤ
  primarySlot1 : ℤ
  primarySlot2 : ℤ
  primarySlot3 : ℤ
  secondarySlot1 : ℤ
  secondarySlot2 : ℤ
deriving DecidableEq, Repr

/-- A participant record, holding exactly the fields
`extract_player_stats` reads.  `championPoints`, `dragonKills` and
`baronKills` are read with `participant.get(key, 0)`, hence `Option`. -/
structure Participant where
  riotIdGameName : String
  championName : String
  championId : ℤ
  totalMinionsKilled : ℤ
  totalDamageDealtToChampions : ℤ
  totalDamageTaken : ℤ
  damageDealtToTurrets : ℤ
  goldEarned : ℤ
  win : Bool
  item0 : ℤ
  item1 : ℤ
  item2 : ℤ
  item3 : ℤ
  item4 : ℤ
  item5 : ℤ
  kills : ℤ
  deaths : ℤ
  assists : ℤ
  perks : Perks
  summoner1Id : ℤ
  summoner2Id : ℤ
  championPoints : Option ℤ
  dragonKills : Option ℤ
  baronKills : Option ℤ
  visionScore : ℤ
  lane : String
  role : String
deriving DecidableEq, Repr

/-- The `info` object of a match: duration in seconds and the ordered
participant list (`match_data['info']`). -/
structure MatchInfo where
  gameDuration : ℤ
  participants : List Participant
deriving DecidableEq, Repr

/-- A parsed match-API response body (`match_data`). -/
structure MatchData where
  info : MatchInfo
deriving DecidableEq, Repr

/-- `RANKS` from `league_api.py`: the fixed ordered list of 11 rank
labels, index 0 = "Unranked" through index 10 = "Challenger". -/
def RANKS : List String :=
  ["Unranked", "Iron", "Bronze", "Silver", "Gold", "Platinum",
   "Emerald", "Diamond", "Master", "Grandmaster", "Challenger"]

/-- `LANE_ENCODING` from `league_api.py`, as an association list in
source order. -/
def LANE_ENCODING : List (String × ℚ) :=
  [("BOTTOM", 0), ("SUPPORT", 1), ("NONE", 2), ("JUNGLE", 3),
   ("TOP", 4), ("MIDDLE", 5), ("UTILITY", 1)]

/-- `ROLE_ENCODING` from `league_api.py`. -/
def ROLE_ENCODING : List (String × ℚ) :=
  [("SUPPORT", 0), ("ADC", 1), ("NONE", 2), ("JUNGLE", 3),
   ("TOP", 4), ("MIDDLE", 5), ("SOLO", 4), ("DUO", 1), ("CARRY", 1)]

/-- `GAME_PHASE_ENCODING` from `league_api.py`. -/
def GAME_PHASE_ENCODING : List (String × ℚ) :=
  [("Mid", 0), ("Late", 1), ("Early", 2)]

/-- `df['Lane'].map(LANE_ENCODING).fillna(5)` applied to one cell:
table lookup with total fallback 5. -/
def encodeLane (s : String) : ℚ := (LANE_ENCODING.lookup s).getD 5

/-- `df['Role'].map(ROLE_ENCODING).fillna(1)` on one cell. -/
def encodeRole (s : String) : ℚ := (ROLE_ENCODING.lookup s).getD 1

/-- `df['GamePhase'].map(GAME_PHASE_ENCODING).fillna(0)` on one cell. -/
def encodeGamePhase (s : String) : ℚ := (GAME_PHASE_ENCODING.lookup s).getD 0

/-- The pre-encoding game-phase string of `extract_player_stats`
(line 138): `'Early' if game_duration_min < 20 else ('Mid' if
game_duration_min < 35 else 'Late')`. -/
def gamePhaseString (game_duration_min : ℚ) : String :=
  if game_duration_min < 20 then "Early"
  else if game_duration_min < 35 then "Mid" else "Late"

/-- `sum([1 for i in range(6) if participant[f'item{i}'] != 0])`. -/
def itemCount (p : Participant) : ℤ :=
  (([p.item0, p.item1, p.item2, p.item3, p.item4, p.item5].filter
    (fun i => i != 0)).length : ℤ)

/-- The `stats` dictionary built per participant inside the loop of
`extract_player_stats`, in exact source insertion order, before the
categorical-encoding pass. -/
def buildStats (game_duration_seconds : ℤ) (p : Participant) : Row :=
  let game_duration_min : ℚ := (game_duration_seconds : ℚ) / 60
  [("MinionsKilled", Val.num p.totalMinionsKilled),
   ("DmgDealt", Val.num p.totalDamageDealtToChampions),
   ("DmgTaken", Val.num p.totalDamageTaken),
   ("TurretDmgDealt", Val.num p.damageDealtToTurrets),
   ("TotalGold", Val.num p.goldEarned),
   ("Win", Val.num (if p.win then 1 else 0)),
   ("item1", Val.num p.item0),
   ("item2", Val.num p.item1),
   ("item3", Val.num p.item2),
   ("item4", Val.num p.item3),
   ("item5", Val.num p.item4),
   ("item6", Val.num p.item5),
   ("kills", Val.num p.kills),
   ("deaths", Val.num p.deaths),
   ("assists", Val.num p.assists),
   ("PrimaryKeyStone", Val.num p.perks.primaryKeystone),
   ("PrimarySlot1", Val.num p.perks.primarySlot1),
   ("PrimarySlot2", Val.num p.perks.primarySlot2),
   ("PrimarySlot3", Val.num p.perks.primarySlot3),
   ("SecondarySlot1", Val.num p.perks.secondarySlot1),
   ("SecondarySlot2", Val.num p.perks.secondarySlot2),
   ("SummonerSpell1", Val.num p.summoner1Id),
   ("SummonerSpell2", Val.num p.summoner2Id),
   ("CurrentMasteryPoints", Val.num (p.championPoints.getD 0)),
   ("DragonKills", Val.num (p.dragonKills.getD 0)),
   ("BaronKills", Val.num (p.baronKills.getD 0)),
   ("visionScore", Val.num p.visionScore),
   ("SummonerMatchId", Val.num 0),
   ("ChampionFk", Val.num p.championId),
   ("SummonerFk", Val.num 0),
   ("GameDuration", Val.num game_duration_seconds),
   ("KDA", Val.num (((p.kills : ℚ) + (p.assists : ℚ)) / ((max p.deaths 1 : ℤ) : ℚ))),
   ("GameDurationMin", Val.num game_duration_min),
   ("GoldPerMin", Val.num ((p.goldEarned : ℚ) / game_duration_min)),
   ("CSPerMin", Val.num ((p.totalMinionsKilled : ℚ) / game_duration_min)),
   ("DmgPerMin", Val.num ((p.totalDamageDealtToChampions : ℚ) / game_duration_min)),
   ("VisionPerMin", Val.num ((p.visionScore : ℚ) / game_duration_min)),
   ("DmgPerGold", Val.num ((p.totalDamageDealtToChampions : ℚ) / ((max p.goldEarned 1 : ℤ) : ℚ))),
   ("DmgEfficiency", Val.num ((p.totalDamageDealtToChampions : ℚ) / ((max p.totalDamageTaken 1 : ℤ) : ℚ))),
   ("ItemCount", Val.num (itemCount p)),
   ("ObjectiveParticipation", Val.num (p.dragonKills.getD 0 + p.baronKills.getD 0)),
   ("ChampionId", Val.num p.championId),
   ("Lane", Val.str p.lane),
   ("Role", Val.str p.role),
   ("GamePhase", Val.str (gamePhaseString game_duration_min)),
   ("summonerName", Val.str p.riotIdGameName),
   ("championName", Val.str p.championName)]

/-- Python's `str.lower()` on the ASCII names compared here: lower
every character.  (Equivalent to `String.toLower`, but defined by a
structural map over the character list.) -/
def lowerString (s : String) : String := ⟨s.data.map Char.toLower⟩

/-- The participant filter of `extract_player_stats` (line 88):
`if username and participant['riotIdGameName'].lower() != username.lower():
continue`.  A participant is kept when that skip condition is false;
Python string truthiness makes `None` and `""` both skip the test. -/
def keepParticipant (username : Option String) (p : Participant) : Bool :=
  match username with
  | none => true
  | some u => !(!(u == "") && !(lowerString p.riotIdGameName == lowerString u))

/-- `df[key] = df[key].map(table).fillna(default)` applied to one cell:
a string cell is looked up in the table (missing keys become NaN and
then the fill value); a cell that is not a string cannot be a key of
the string-keyed table, so it also becomes the fill value. -/
def mapFillna (table : List (String × ℚ)) (default : ℚ) (v : Val) : Val :=
  match v with
  | Val.str s => Val.num ((table.lookup s).getD default)
  | Val.num _ => Val.num default

/-- The column-encoding pass applied to one row: replace the value at
`key` by its encoded form, leaving every other field untouched. -/
def encodeField (key : String) (table : List (String × ℚ)) (default : ℚ)
    (row : Row) : Row :=
  row.map (fun kv => if kv.1 == key then (kv.1, mapFillna table default kv.2) else kv)

/-- The three `map(...).fillna(...)` column passes of
`extract_player_stats` (lines 148-150) applied to one row. -/
def encodeRow (row : Row) : Row :=
  encodeField "GamePhase" GAME_PHASE_ENCODING 0
    (encodeField "Role" ROLE_ENCODING 1
      (encodeField "Lane" LANE_ENCODING 5 row))

/-- `extract_player_stats(match_data, username)` on the path where at
least one participant passes the filter: build one stats row per kept
participant, then encode the three categorical columns across the
batch.  When the filter keeps nobody the real function does NOT
return this empty list: `pd.DataFrame([])` has no columns, so the
`df['Lane']` encoding pass at line 148 raises `KeyError: 'Lane'`;
that raising behaviour is modelled faithfully by
`extract_player_stats_run` below. -/
def extract_player_stats (match_data : MatchData) (username : Option String) :
    List Row :=
  let participants := match_data.info.participants
  let game_duration_seconds := match_data.info.gameDuration
  ((participants.filter (keepParticipant username)).map
    (buildStats game_duration_seconds)).map encodeRow

/-- `extract_player_stats(match_data, username)` with its error path:
when `player_stats_list` is empty, `pd.DataFrame([])` has no columns
and the `df['Lane'] = df['Lane'].map(...)` pass at line 148 raises an
uncaught `KeyError: 'Lane'`, modelled as `Except.error`; otherwise the
encoded rows are returned. -/
def extract_player_stats_run (match_data : MatchData) (username : Option String) :
    Except String (List Row) :=
  let rows := (match_data.info.participants.filter (keepParticipant username)).map
    (buildStats match_data.info.gameDuration)
  if rows.isEmpty then Except.error "KeyError: Lane"
  else Except.ok (rows.map encodeRow)

/-- `model_columns` from `prepare_for_model`: the fixed 45-name
sequence, in source order. -/
def model_columns : List String :=
  ["MinionsKilled", "DmgDealt", "DmgTaken", "TurretDmgDealt", "TotalGold", "Win",
   "item1", "item2", "item3", "item4", "item5", "item6",
   "kills", "deaths", "assists",
   "PrimaryKeyStone", "PrimarySlot1", "PrimarySlot2", "PrimarySlot3",
   "SecondarySlot1", "SecondarySlot2",
   "SummonerSpell1", "SummonerSpell2",
   "CurrentMasteryPoints", "DragonKills", "BaronKills", "visionScore",
   "SummonerMatchId", "ChampionFk", "SummonerFk", "GameDuration",
   "KDA", "GameDurationMin", "GoldPerMin", "CSPerMin", "DmgPerMin", "VisionPerMin",
   "DmgPerGold", "DmgEfficiency", "ItemCount", "ObjectiveParticipation",
   "ChampionId", "Lane", "Role", "GamePhase"]

/-- `df[model_columns]` on one row: select the named columns by name,
in the fixed order, regardless of the row's own field order.  A value
is `none` exactly when the column is absent from the row. -/
def selectColumns (row : Row) : List (String × Option Val) :=
  model_columns.map (fun c => (c, row.lookup c))

/-- `prepare_for_model(df)`: the column projection applied to every
row (`df[model_columns].copy()`). -/
def prepare_for_model (df : List Row) : List (List (String × Option Val)) :=
  df.map selectColumns

/-- An HTTP response as the fetcher observes it: status code, body
text, and the parsed JSON body (what `response.json()` would return
when the body parses as a match record). -/
structure HttpResponse where
  status_code : ℕ
  text : String
  jsonData : MatchData
deriving DecidableEq, Repr

/-- `get_match_data(match_id)` with the transport abstracted to the
response it yields: on status 200 return the parsed body, otherwise
print an error line naming the status code and body text and return
`None`.  The second component collects the console output. -/
def get_match_data (response : HttpResponse) : Option MatchData × List String :=
  if response.status_code == 200 then (some response.jsonData, [])
  else (none, ["Error: " ++ toString response.status_code ++ " - " ++ response.text])

/-- The classifier handle: `model.predict(model_features)` maps the
prepared feature table to one class index per row.  The pickled tree
is opaque, so it is a parameter of everything that calls it. -/
abbrev Classifier := List (List (String × Option Val)) → List ℕ

/-- `add_rank_predictions(players_df)` with the loaded model as an
explicit parameter: `None` on an empty table, otherwise a copy of the
input with the `PredictedRankId` and `PredictedRank` columns appended
in that order.  `RANKS[int(pred)]` is embedded as `RANKS.getD pred ""`;
the source would raise `IndexError` on a class index above 10, so the
claims about this function assume indices in range. -/
def add_rank_predictions (model : Classifier) (players_df : List Row) :
    Option (List Row) :=
  if players_df.isEmpty then none
  else
    let model_features := prepare_for_model players_df
    let predictions := model model_features
    some (List.zipWith
      (fun row (pred : ℕ) =>
        row ++ [("PredictedRankId", Val.num (pred : ℚ)),
                ("PredictedRank", Val.str (RANKS.getD pred ""))])
      players_df predictions)

/-- `get_player_stats_from_match(match_id, username)`: fetch, return
`None` on fetch failure or when the filtered extraction is empty,
otherwise the filtered rows.  The second component is all console
output produced along the way (only `get_match_data` prints). -/
def get_player_stats_from_match (response : HttpResponse) (username : String) :
    Option (List Row) × List String :=
  let fetched := get_match_data response
  match fetched.1 with
  | none => (none, fetched.2)
  | some match_data =>
    let player_df := extract_player_stats match_data (some username)
    if player_df.isEmpty then (none, fetched.2) else (some player_df, fetched.2)

/-- `get_player_stats_from_match(match_id, username)` with the
extractor's error path made explicit: the `KeyError` raised inside
`extract_player_stats` when no participant matches propagates
uncaught past this function — its own `if player_df.empty: return
None` guard is dead code, reached only when extraction returns
normally, which requires a non-empty row list. -/
def get_player_stats_from_match_run (response : HttpResponse) (username : String) :
    Except String (Option (List Row) × List String) :=
  let fetched := get_match_data response
  match fetched.1 with
  | none => Except.ok (none, fetched.2)
  | some match_data =>
    match extract_player_stats_run match_data (some username) with
    | Except.error e => Except.error e
    | Except.ok player_df =>
      Except.ok (if player_df.isEmpty then (none, fetched.2) else (some player_df, fetched.2))

/-- `predict_all_players(match_id)` generalized over the extractor it
calls, so that non-invocation of the extractor on the failure path is
expressible: the result on a failed fetch is the same whatever
extractor is plugged in. -/
def predict_all_players_gen
    (extractor : MatchData → Option String → List Row)
    (model : Classifier) (response : HttpResponse) : Option (List Row) :=
  match (get_match_data response).1 with
  | none => none
  | some match_data =>
    let all_players := extractor match_data none
    if all_players.isEmpty then none
    else add_rank_predictions model all_players

/-- `predict_all_players(match_id)`: fetch, extract every participant,
predict. -/
def predict_all_players (model : Classifier) (response : HttpResponse) :
    Option (List Row) :=
  predict_all_players_gen extract_player_stats model response

/-- Python's `round` on a rational value: round half to even
(banker's rounding), which is what `round(float(...))` performs in
`prepare_prediction_summary`. -/
def roundHalfEven (q : ℚ) : ℤ :=
  if Int.fract q < 1 / 2 then ⌊q⌋
  else if 1 / 2 < Int.fract q then ⌊q⌋ + 1
  else if ⌊q⌋ % 2 = 0 then ⌊q⌋ else ⌊q⌋ + 1

/-- `float(summary_df['PredictedRankId'].mean())` (line 300): the mean
of the predicted class indices. -/
def avg_rank_id (predictedRankIds : List ℕ) : ℚ :=
  ((predictedRankIds.map (fun n => (n : ℚ))).sum) / (predictedRankIds.length : ℚ)

/-- `max(0, min(len(RANKS) - 1, round(avg_rank_id)))` (line 301). -/
def avg_rank_id_for_label (predictedRankIds : List ℕ) : ℤ :=
  max 0 (min ((RANKS.length : ℤ) - 1) (roundHalfEven (avg_rank_id predictedRankIds)))

/-- `RANKS[int(avg_rank_id_for_label)]` (line 302): the clamp keeps
the index inside the list, so total `getD` indexing is faithful. -/
def avg_rank (predictedRankIds : List ℕ) : String :=
  RANKS.getD (avg_rank_id_for_label predictedRankIds).toNat ""

/-- A well-formed sample participant used to instantiate hypotheses
of the claims at concrete inputs. -/
def sampleParticipant : Participant :=
  { riotIdGameName := "Alice"
    championName := "Ahri"
    championId := 103
    totalMinionsKilled := 200
    totalDamageDealtToChampions := 24000
    totalDamageTaken := 18000
    damageDealtToTurrets := 3000
    goldEarned := 12000
    win := true
    item0 := 3089, item1 := 3020, item2 := 0, item3 := 3157, item4 := 0, item5 := 3364
    kills := 7, deaths := 0, assists := 9
    perks := ⟨8112, 8126, 8138, 8135, 8275, 8234⟩
    summoner1Id := 4, summoner2Id := 14
    championPoints := some 150000
    dragonKills := some 1
    baronKills := none
    visionScore := 25
    lane := "MIDDLE"
    role := "SOLO" }

/-- A sample parsed match with one participant and a 30-minute
duration. -/
def sampleMatch : MatchData := ⟨⟨1800, [sampleParticipant]⟩⟩

/-- A sample successful HTTP response carrying `sampleMatch`. -/
def sampleResponse : HttpResponse :=
  { status_code := 200, text := "ok", jsonData := sampleMatch }

/-- A sample failed HTTP response (status 404). -/
def sampleResponse404 : HttpResponse :=
  { status_code := 404, text := "match not found", jsonData := sampleMatch }

/-- The 47 keys of the per-participant stats dictionary, in insertion
order: the 45 model columns interleaved as built, plus the descriptive
`summonerName` and `championName`. -/
def stat_keys : List String :=
  ["MinionsKilled", "DmgDealt", "DmgTaken", "TurretDmgDealt", "TotalGold", "Win",
   "item1", "item2", "item3", "item4", "item5", "item6",
   "kills", "deaths", "assists",
   "PrimaryKeyStone", "PrimarySlot1", "PrimarySlot2", "PrimarySlot3",
   "SecondarySlot1", "SecondarySlot2",
   "SummonerSpell1", "SummonerSpell2",
   "CurrentMasteryPoints", "DragonKills", "BaronKills", "visionScore",
   "SummonerMatchId", "ChampionFk", "SummonerFk", "GameDuration",
   "KDA", "GameDurationMin", "GoldPerMin", "CSPerMin", "DmgPerMin", "VisionPerMin",
   "DmgPerGold", "DmgEfficiency", "ItemCount", "ObjectiveParticipation",
   "ChampionId", "Lane", "Role", "GamePhase", "summonerName", "championName"]

/-- A stub classifier assigning class index 3 to every row, used to
instantiate the classifier parameter at concrete inputs. -/
def constClassifier : Classifier := fun feats => feats.map (fun _ => 3)

/-- A one-row, one-column sample table for instantiating C8. -/
def sampleDf : List Row := [[("kills", Val.num 7)]]

/-! ### Association-list helper lemmas -/

theorem lookup_isSome_of_mem {β : Type} {l : List (String × β)} {a : String}
    (h : a ∈ l.map Prod.fst) : (l.lookup a).isSome := by
  induction l with
  | nil => simp at h
  | cons kv tl ih =>
    by_cases hak : a = kv.1
    · simp [List.lookup, hak]
    · have hne : (a == kv.1) = false := beq_false_of_ne hak
      simp only [List.lookup, hne]
      simp only [List.map_cons, List.mem_cons] at h
      exact ih (h.resolve_left hak)

theorem lookup_eq_none_of_not_mem {β : Type} {l : List (String × β)} {a : String}
    (h : a ∉ l.map Prod.fst) : l.lookup a = none := by
  induction l with
  | nil => rfl
  | cons kv tl ih =>
    simp only [List.map_cons, List.mem_cons] at h
    push_neg at h
    have hne : (a == kv.1) = false := beq_false_of_ne h.1
    simp only [List.lookup, hne]
    exact ih h.2

theorem keys_encodeField (key : String) (table : List (String × ℚ)) (default : ℚ)
    (row : Row) :
    (encodeField key table default row).map Prod.fst = row.map Prod.fst := by
  unfold encodeField
  rw [List.map_map]
  apply List.map_congr_left
  intro kv _
  by_cases h : (kv.1 == key) = true
  · simp only [Function.comp_apply, if_pos h]
  · simp only [Function.comp_apply, if_neg h]

theorem keys_encodeRow (row : Row) :
    (encodeRow row).map Prod.fst = row.map Prod.fst := by
  unfold encodeRow
  rw [keys_encodeField, keys_encodeField, keys_encodeField]

theorem extract_player_stats_run_ok (match_data : MatchData) (username : Option String)
    (h : (match_data.info.participants.filter (keepParticipant username)) ≠ []) :
    extract_player_stats_run match_data username =
      Except.ok (extract_player_stats match_data username) := by
  unfold extract_player_stats_run
  rw [if_neg]
  · rfl
  · simp [h]

/-! ### Claims -/

/-- Claim C2: categorical encoding is pure table lookup with total
fallback.  "UTILITY" encodes like "SUPPORT" (both 1), "SOLO" like
"TOP" (both 4), "DUO" and "CARRY" like "ADC" (all 1); every string
absent from a table takes the documented default (Lane 5, Role 1,
GamePhase 0); and the per-cell encoding step that the extraction pass
(`encodeRow` via `mapFillna`, lines 148-150) applies to every string
cell is exactly this total lookup-with-default, so encoding yields a
numeric code for every input string and never fails. -/
theorem C2_categorical_encoding (s s₁ s₂ s₃ : String)
    (h₁ : s₁ ∉ LANE_ENCODING.map Prod.fst)
    (h₂ : s₂ ∉ ROLE_ENCODING.map Prod.fst)
    (h₃ : s₃ ∉ GAME_PHASE_ENCODING.map Prod.fst) :
    encodeLane "UTILITY" = encodeLane "SUPPORT" ∧ encodeLane "SUPPORT" = 1 ∧
    encodeRole "SOLO" = encodeRole "TOP" ∧ encodeRole "TOP" = 4 ∧
    encodeRole "DUO" = encodeRole "ADC" ∧ encodeRole "CARRY" = encodeRole "ADC" ∧
    encodeRole "ADC" = 1 ∧
    encodeLane s₁ = 5 ∧ encodeRole s₂ = 1 ∧ encodeGamePhase s₃ = 0 ∧
    mapFillna LANE_ENCODING 5 (Val.str s) = Val.num (encodeLane s) ∧
    mapFillna ROLE_ENCODING 1 (Val.str s) = Val.num (encodeRole s) ∧
    mapFillna GAME_PHASE_ENCODING 0 (Val.str s) = Val.num (encodeGamePhase s) := by
  refine ⟨by decide, by decide, by decide, by decide, by decide, by decide, by decide,
    ?_, ?_, ?_, rfl, rfl, rfl⟩
  · unfold encodeLane
    rw [lookup_eq_none_of_not_mem h₁]
    rfl
  · unfold encodeRole
    rw [lookup_eq_none_of_not_mem h₂]
    rfl
  · unfold encodeGamePhase
    rw [lookup_eq_none_of_not_mem h₃]
    rfl

/-- Witness for C2: the unmapped string "RIVER" takes each table's
default, and the extraction pass's cell encoding of "RIVER" is that
same total lookup. -/
theorem C2_categorical_encoding_witness :
    encodeLane "RIVER" = 5 ∧ encodeRole "RIVER" = 1 ∧ encodeGamePhase "RIVER" = 0 ∧
    mapFillna LANE_ENCODING 5 (Val.str "RIVER") = Val.num (encodeLane "RIVER") := by
  obtain ⟨-, -, -, -, -, -, -, hA, hB, hC, hD, -, -⟩ :=
    C2_categorical_encoding "RIVER" "RIVER" "RIVER" "RIVER"
      (by decide) (by decide) (by decide)
  exact ⟨hA, hB, hC, hD⟩

/-- Claim C4: the pre-encoding game-phase string is "Early" below 20
minutes, "Mid" from 20 up to (excluding) 35, "Late" from 35 on, with
half-open boundaries: exactly 20.0 minutes gives "Mid" and exactly
35.0 minutes gives "Late". -/
theorem C4_game_phase_boundaries (d : ℚ) :
    (d < 20 → gamePhaseString d = "Early") ∧
    (20 ≤ d → d < 35 → gamePhaseString d = "Mid") ∧
    (35 ≤ d → gamePhaseString d = "Late") ∧
    gamePhaseString 20 = "Mid" ∧ gamePhaseString 35 = "Late" := by
  refine ⟨fun h => ?_, fun h₁ h₂ => ?_, fun h => ?_, ?_, ?_⟩
  · simp only [gamePhaseString, if_pos h]
  · simp only [gamePhaseString]
    rw [if_neg (not_lt.mpr h₁), if_pos h₂]
  · simp only [gamePhaseString]
    rw [if_neg (not_lt.mpr (by linarith)), if_neg (not_lt.mpr h)]
  · norm_num [gamePhaseString]
  · norm_num [gamePhaseString]

/-- Witness for C4 at the spec's sample durations 19.999, 20.0,
34.999 and 35.0 minutes. -/
theorem C4_game_phase_boundaries_witness :
    gamePhaseString (19999 / 1000) = "Early" ∧ gamePhaseString 20 = "Mid" ∧
    gamePhaseString (34999 / 1000) = "Mid" ∧ gamePhaseString 35 = "Late" := by
  refine ⟨(C4_game_phase_boundaries (19999 / 1000)).1 (by norm_num),
    (C4_game_phase_boundaries 0).2.2.2.1,
    (C4_game_phase_boundaries (34999 / 1000)).2.1 (by norm_num) (by norm_num),
    (C4_game_phase_boundaries 0).2.2.2.2⟩

/-- Claim C9: passing the empty string as the username filter behaves
exactly like passing no filter: the skip condition tests Python
truthiness of the name, `""` is falsy, so every participant is kept
and the full row set is returned. -/
theorem C9_empty_string_filter (m : MatchData) :
    extract_player_stats m (some "") = extract_player_stats m none ∧
    (extract_player_stats m (some "")).length = m.info.participants.length := by
  have hfilter : m.info.participants.filter (keepParticipant (some "")) =
      m.info.participants.filter (keepParticipant none) :=
    List.filter_congr (fun p _ => rfl)
  have hall : m.info.participants.filter (keepParticipant none) =
      m.info.participants :=
    List.filter_eq_self.mpr (fun p _ => rfl)
  constructor
  · simp only [extract_player_stats]
    rw [hfilter]
  · simp only [extract_player_stats, List.length_map]
    rw [hfilter, hall]

/-- Claim C3: under a strictly positive match duration every derived
ratio field of the produced row equals its formula and no denominator
is zero: `KDA = (kills + assists) / max(deaths, 1)` (so zero deaths
gives exactly `kills + assists`), the four per-minute rates divide by
`durationSeconds / 60`, `DmgPerGold` divides by `max(goldEarned, 1)`
and `DmgEfficiency` by `max(damageTaken, 1)`.  `encodeRow ∘ buildStats`
is the row `extract_player_stats` emits for the participant. -/
theorem C3_derived_ratios (s : ℤ) (p : Participant) (hs : 0 < s) :
    (s : ℚ) / 60 ≠ 0 ∧
    ((max p.deaths 1 : ℤ) : ℚ) ≠ 0 ∧
    ((max p.goldEarned 1 : ℤ) : ℚ) ≠ 0 ∧
    ((max p.totalDamageTaken 1 : ℤ) : ℚ) ≠ 0 ∧
    (encodeRow (buildStats s p)).lookup "KDA" =
      some (Val.num (((p.kills : ℚ) + (p.assists : ℚ)) / ((max p.deaths 1 : ℤ) : ℚ))) ∧
    (p.deaths = 0 →
      (encodeRow (buildStats s p)).lookup "KDA" =
        some (Val.num ((p.kills : ℚ) + (p.assists : ℚ)))) ∧
    (encodeRow (buildStats s p)).lookup "GoldPerMin" =
      some (Val.num ((p.goldEarned : ℚ) / ((s : ℚ) / 60))) ∧
    (encodeRow (buildStats s p)).lookup "CSPerMin" =
      some (Val.num ((p.totalMinionsKilled : ℚ) / ((s : ℚ) / 60))) ∧
    (encodeRow (buildStats s p)).lookup "DmgPerMin" =
      some (Val.num ((p.totalDamageDealtToChampions : ℚ) / ((s : ℚ) / 60))) ∧
    (encodeRow (buildStats s p)).lookup "VisionPerMin" =
      some (Val.num ((p.visionScore : ℚ) / ((s : ℚ) / 60))) ∧
    (encodeRow (buildStats s p)).lookup "DmgPerGold" =
      some (Val.num ((p.totalDamageDealtToChampions : ℚ) / ((max p.goldEarned 1 : ℤ) : ℚ))) ∧
    (encodeRow (buildStats s p)).lookup "DmgEfficiency" =
      some (Val.num ((p.totalDamageDealtToChampions : ℚ) / ((max p.totalDamageTaken 1 : ℤ) : ℚ))) := by
  have hsq : (0 : ℚ) < (s : ℚ) := by exact_mod_cast hs
  have hkda : (encodeRow (buildStats s p)).lookup "KDA" =
      some (Val.num (((p.kills : ℚ) + (p.assists : ℚ)) / ((max p.deaths 1 : ℤ) : ℚ))) := rfl
  refine ⟨ne_of_gt (by positivity),
    Int.cast_ne_zero.mpr (ne_of_gt (lt_of_lt_of_le Int.one_pos (le_max_right p.deaths 1))),
    Int.cast_ne_zero.mpr (ne_of_gt (lt_of_lt_of_le Int.one_pos (le_max_right p.goldEarned 1))),
    Int.cast_ne_zero.mpr (ne_of_gt (lt_of_lt_of_le Int.one_pos (le_max_right p.totalDamageTaken 1))),
    hkda, fun h₀ => ?_, rfl, rfl, rfl, rfl, rfl, rfl⟩
  have hm : max (0 : ℤ) 1 = 1 := by decide
  rw [hkda, h₀, hm]
  simp

/-- Witness for C3 at a 1800-second match and a zero-death sample
participant. -/
theorem C3_derived_ratios_witness :
    ((1800 : ℤ) : ℚ) / 60 ≠ 0 ∧
    (encodeRow (buildStats 1800 sampleParticipant)).lookup "KDA" =
      some (Val.num ((sampleParticipant.kills : ℚ) + (sampleParticipant.assists : ℚ))) := by
  have h := C3_derived_ratios 1800 sampleParticipant (by norm_num)
  exact ⟨h.1, h.2.2.2.2.2.1 (by decide)⟩

theorem buildStats_keys (s : ℤ) (p : Participant) :
    (buildStats s p).map Prod.fst = stat_keys := rfl

/-- Claim C10: the pre-encoding game-phase string is always one of
"Early", "Mid", "Late", so its encoded value lies in {0, 1, 2} and the
unmapped default 0 is never reached by fallback on the extract path;
the `Win` field of every extracted row is exactly 0 or 1. -/
theorem C10_phase_win_invariants (m : MatchData) (u : Option String) (d : ℚ) :
    (GAME_PHASE_ENCODING.lookup (gamePhaseString d)).isSome ∧
    (encodeGamePhase (gamePhaseString d) = 0 ∨ encodeGamePhase (gamePhaseString d) = 1 ∨
      encodeGamePhase (gamePhaseString d) = 2) ∧
    ∀ row ∈ extract_player_stats m u,
      (row.lookup "GamePhase" = some (Val.num 0) ∨
       row.lookup "GamePhase" = some (Val.num 1) ∨
       row.lookup "GamePhase" = some (Val.num 2)) ∧
      (row.lookup "Win" = some (Val.num 0) ∨ row.lookup "Win" = some (Val.num 1)) := by
  have hph : ∀ x : ℚ, (GAME_PHASE_ENCODING.lookup (gamePhaseString x)).isSome ∧
      (encodeGamePhase (gamePhaseString x) = 0 ∨ encodeGamePhase (gamePhaseString x) = 1 ∨
        encodeGamePhase (gamePhaseString x) = 2) := by
    intro x
    unfold gamePhaseString
    split_ifs
    · exact ⟨by decide, Or.inr (Or.inr (by decide))⟩
    · exact ⟨by decide, Or.inl (by decide)⟩
    · exact ⟨by decide, Or.inr (Or.inl (by decide))⟩
  refine ⟨(hph d).1, (hph d).2, ?_⟩
  intro row hrow
  simp only [extract_player_stats] at hrow
  rw [List.map_map] at hrow
  obtain ⟨p, hp, rfl⟩ := List.mem_map.mp hrow
  constructor
  · have hlk : ((encodeRow ∘ buildStats m.info.gameDuration) p).lookup "GamePhase" =
        some (Val.num (encodeGamePhase (gamePhaseString ((m.info.gameDuration : ℚ) / 60)))) := rfl
    rcases (hph ((m.info.gameDuration : ℚ) / 60)).2 with h | h | h
    · exact Or.inl (hlk.trans (by rw [h]))
    · exact Or.inr (Or.inl (hlk.trans (by rw [h])))
    · exact Or.inr (Or.inr (hlk.trans (by rw [h])))
  · have hwin : ((encodeRow ∘ buildStats m.info.gameDuration) p).lookup "Win" =
        some (Val.num (if p.win then 1 else 0)) := rfl
    by_cases hw : p.win = true
    · exact Or.inr (hwin.trans (by rw [if_pos hw]))
    · exact Or.inl (hwin.trans (by rw [if_neg hw]))

/-- Witness for C10 at the sample match and a 30-minute duration. -/
theorem C10_phase_win_invariants_witness :
    ((encodeRow (buildStats 1800 sampleParticipant)).lookup "Win" = some (Val.num 0) ∨
     (encodeRow (buildStats 1800 sampleParticipant)).lookup "Win" = some (Val.num 1)) ∧
    (GAME_PHASE_ENCODING.lookup (gamePhaseString 30)).isSome := by
  have h := C10_phase_win_invariants sampleMatch none 30
  have hmem : encodeRow (buildStats 1800 sampleParticipant) ∈
      extract_player_stats sampleMatch none := by
    have heq : extract_player_stats sampleMatch none =
        [encodeRow (buildStats 1800 sampleParticipant)] := rfl
    rw [heq]
    exact List.mem_singleton.mpr rfl
  exact ⟨(h.2.2 _ hmem).2, h.1⟩

/-- Claim C1: every kept participant yields exactly one row in which
all 45 model fields are present (hence non-null), the column
projection yields exactly the 45 names in the fixed order for any
input row, the projection depends only on the row's name-to-value
mapping (not its insertion order), and the descriptive fields
`summonerName` and `championName` are not among the projected
columns. -/
theorem C1_row_schema (m : MatchData) (u : Option String) :
    model_columns.length = 45 ∧
    (extract_player_stats m u).length =
      (m.info.participants.filter (keepParticipant u)).length ∧
    (∀ row ∈ extract_player_stats m u, ∀ c ∈ model_columns, (row.lookup c).isSome) ∧
    (∀ row : Row, (selectColumns row).map Prod.fst = model_columns) ∧
    (∀ row row' : Row, (∀ c, row.lookup c = row'.lookup c) →
      selectColumns row = selectColumns row') ∧
    "summonerName" ∉ model_columns ∧ "championName" ∉ model_columns := by
  refine ⟨by decide, ?_, ?_, ?_, ?_, by decide, by decide⟩
  · simp only [extract_player_stats, List.length_map]
  · intro row hrow c hc
    simp only [extract_player_stats] at hrow
    rw [List.map_map] at hrow
    obtain ⟨p, hp, rfl⟩ := List.mem_map.mp hrow
    apply lookup_isSome_of_mem
    show c ∈ (encodeRow (buildStats m.info.gameDuration p)).map Prod.fst
    rw [keys_encodeRow, buildStats_keys]
    have hsub : ∀ x ∈ model_columns, x ∈ stat_keys := by decide
    exact hsub c hc
  · intro row
    simp only [selectColumns, List.map_map]
    have hcomp : (Prod.fst ∘ fun c => (c, row.lookup c)) = fun c : String => c := rfl
    rw [hcomp, List.map_id']
  · intro row row' h
    exact List.map_congr_left (fun c _ => by rw [h c])

/-- Witness for C1 at the sample match: the "KDA" column of the single
extracted row is present, and the projection of even an empty row
lists exactly the 45 model columns. -/
theorem C1_row_schema_witness :
    ((encodeRow (buildStats 1800 sampleParticipant)).lookup "KDA").isSome ∧
    (selectColumns []).map Prod.fst = model_columns := by
  have h := C1_row_schema sampleMatch none
  have hmem : encodeRow (buildStats 1800 sampleParticipant) ∈
      extract_player_stats sampleMatch none := by
    have heq : extract_player_stats sampleMatch none =
        [encodeRow (buildStats 1800 sampleParticipant)] := rfl
    rw [heq]
    exact List.mem_singleton.mpr rfl
  exact ⟨h.2.2.1 _ hmem "KDA" (by decide), h.2.2.2.1 []⟩

/-- Claim C5: a non-200 response makes the fetcher report the status
code and body text and return the `None` sentinel instead of raising,
and on that failure `predict_all_players` returns no data with the
extractor never invoked — its result is the same for every extractor
plugged in. -/
theorem C5_fetch_failure (response : HttpResponse) (model : Classifier)
    (extractor : MatchData → Option String → List Row)
    (h : response.status_code ≠ 200) :
    (get_match_data response).1 = none ∧
    (get_match_data response).2 =
      ["Error: " ++ toString response.status_code ++ " - " ++ response.text] ∧
    predict_all_players_gen extractor model response = none ∧
    predict_all_players model response = none := by
  have hb : (response.status_code == 200) = false := beq_false_of_ne h
  refine ⟨?_, ?_, ?_, ?_⟩
  · simp [get_match_data, hb]
  · simp [get_match_data, hb]
  · simp [predict_all_players_gen, get_match_data, hb]
  · simp [predict_all_players, predict_all_players_gen, get_match_data, hb]

/-- Witness for C5 at the stub 404 response. -/
theorem C5_fetch_failure_witness :
    (get_match_data sampleResponse404).1 = none ∧
    predict_all_players constClassifier sampleResponse404 = none := by
  have h := C5_fetch_failure sampleResponse404 constClassifier
    (fun _ _ => []) (by decide)
  exact ⟨h.1, h.2.2.2⟩

theorem roundHalfEven_nearest (q : ℚ) : |(roundHalfEven q : ℚ) - q| ≤ 1 / 2 := by
  have h0 : (0 : ℚ) ≤ Int.fract q := Int.fract_nonneg q
  have h1 : Int.fract q < 1 := Int.fract_lt_one q
  have hfl : (⌊q⌋ : ℚ) + Int.fract q = q := Int.floor_add_fract q
  unfold roundHalfEven
  split_ifs <;> rw [abs_le] <;> constructor <;> push_cast <;> linarith

/-- Claim C7: the summary's average rank label is the mean of the
predicted class indices, rounded to a nearest integer (Python rounds
halves to even), clamped to [0, 10], and used as a position in the
fixed 11-label list; indices [0, 1, 10] have mean 11/3 which rounds
to 4 and labels "Gold". -/
theorem C7_average_rank (preds : List ℕ) (h : preds ≠ []) :
    |(roundHalfEven (avg_rank_id preds) : ℚ) - avg_rank_id preds| ≤ 1 / 2 ∧
    0 ≤ avg_rank_id_for_label preds ∧ avg_rank_id_for_label preds ≤ 10 ∧
    avg_rank preds = RANKS.getD (avg_rank_id_for_label preds).toNat "" ∧
    avg_rank [0, 1, 10] = "Gold" ∧
    avg_rank_id [0, 1, 10] = 11 / 3 ∧ roundHalfEven (11 / 3) = 4 := by
  have hlen : ((RANKS.length : ℤ) - 1) = 10 := by decide
  have hmean : avg_rank_id [0, 1, 10] = 11 / 3 := by
    unfold avg_rank_id
    simp only [List.map_cons, List.map_nil, List.sum_cons, List.sum_nil,
      List.length_cons, List.length_nil]
    push_cast
    norm_num
  have hfloor : ⌊(11 : ℚ) / 3⌋ = 3 := by
    rw [Int.floor_eq_iff]
    norm_num
  have hfr : Int.fract ((11 : ℚ) / 3) = 2 / 3 := by
    rw [← Int.self_sub_floor, hfloor]
    norm_num
  have hround : roundHalfEven (11 / 3) = 4 := by
    rw [roundHalfEven, hfr, hfloor]
    norm_num
  refine ⟨roundHalfEven_nearest _, le_max_left _ _, ?_, rfl, ?_, hmean, hround⟩
  · unfold avg_rank_id_for_label
    rw [hlen]
    exact max_le (by norm_num) (min_le_left _ _)
  · unfold avg_rank avg_rank_id_for_label
    rw [hmean, hround, hlen]
    decide

/-- Witness for C7 at the spec's example indices [0, 1, 10]. -/
theorem C7_average_rank_witness :
    avg_rank [0, 1, 10] = "Gold" ∧ 0 ≤ avg_rank_id_for_label [0, 1, 10] := by
  have h := C7_average_rank [0, 1, 10] (by decide)
  exact ⟨h.2.2.2.2.1, h.2.1⟩

/-- Claim C8: `add_rank_predictions` does not mutate its input: for a
non-empty table (with the classifier returning one index per row, as
its contract states) it returns a new table whose every row is the
corresponding input row unchanged, augmented with exactly the
`PredictedRankId` and `PredictedRank` columns in that order.  The
embedding is pure, which captures the `players_df.copy()` in the
source: the input list itself is never modified. -/
theorem C8_no_mutation (model : Classifier) (df : List Row)
    (hne : df ≠ [])
    (hlen : (model (prepare_for_model df)).length = df.length) :
    ∃ out, add_rank_predictions model df = some out ∧
      out.length = df.length ∧
      ∀ k, k < df.length →
        ∃ pred : ℕ, out[k]? = some
          ((df[k]?.getD []) ++
            [("PredictedRankId", Val.num (pred : ℚ)),
             ("PredictedRank", Val.str (RANKS.getD pred ""))]) := by
  have hemp : df.isEmpty = false := List.isEmpty_eq_false.mpr hne
  have hrun : add_rank_predictions model df = some (List.zipWith
      (fun row (pred : ℕ) =>
        row ++ [("PredictedRankId", Val.num (pred : ℚ)),
                ("PredictedRank", Val.str (RANKS.getD pred ""))])
      df (model (prepare_for_model df))) := by
    unfold add_rank_predictions
    rw [if_neg (by simp [hemp])]
  refine ⟨_, hrun, ?_, ?_⟩
  · rw [List.length_zipWith, hlen, min_self]
  · intro k hk
    have hk2 : k < (model (prepare_for_model df)).length := by
      rw [hlen]
      exact hk
    have h1 : df[k]? = some df[k] := List.getElem?_eq_getElem hk
    have h2 : (model (prepare_for_model df))[k]? =
        some ((model (prepare_for_model df))[k]) := List.getElem?_eq_getElem hk2
    refine ⟨(model (prepare_for_model df))[k], ?_⟩
    rw [List.getElem?_zipWith', h1, h2]
    simp

/-- Witness for C8 at the sample table and the constant classifier. -/
theorem C8_no_mutation_witness : (add_rank_predictions constClassifier sampleDf).isSome := by
  obtain ⟨out, hout, -, -⟩ :=
    C8_no_mutation constClassifier sampleDf (by decide) (by decide)
  rw [hout]
  rfl

/-- Claim C6 (code bug): the claim — and the source's own docstring
("Returns: ... or None if not found") together with its dead
`if player_df.empty: return None` guard — promise an empty result set
with no exception when no participant's name matches the filter.  The
code does not deliver this: with zero kept participants
`pd.DataFrame([])` has no columns, so the `df['Lane']` encoding pass
at line 148 raises an uncaught `KeyError: 'Lane'` which propagates
past `get_player_stats_from_match`, and no diagnostic listing the
available names is ever produced.  On a match whose only participant
is "Alice", filtering for "Bob" keeps exactly the case-insensitive
matches (none), and the run ends in the error, not in `None`. -/
theorem C6_not_found_keyerror :
    (sampleMatch.info.participants.filter (keepParticipant (some "Bob"))) = [] ∧
    extract_player_stats_run sampleMatch (some "Bob") =
      Except.error "KeyError: Lane" ∧
    get_player_stats_from_match_run sampleResponse "Bob" =
      Except.error "KeyError: Lane" := by
  exact ⟨rfl, rfl, rfl⟩

end LeagueApi
